import Mathlib

/-!
# Verification of `thlib/sqlite3dump` (`dump.go`)

A shallow embedding of the Go package `sqlite3dump`.  The database engine
(go-sqlite3) is an external collaborator: we model the contents of the
`sqlite_master` catalog as a list of rows, and the two fixed catalog
queries issued by `dumpDB` by their SQL semantics (filtering on `type`
and `sql NOT NULL`; `ORDER BY "name"` for the table query).  The output
stream (`io.Writer`) is modelled as the list of chunks passed to
`Write`, together with a failure behaviour saying which `Write` calls
fail; Go errors are modelled by an inductive type.
-/

namespace Sqlite3Dump

/-- One row of the `sqlite_master` catalog, in catalog return order:
`name`, `type` (table / index / trigger / view), and the nullable `sql`
creation statement. -/
structure MasterRow where
  name : String
  type : String
  sql : Option String
deriving DecidableEq, Repr

/-- Go `type schema struct { Name, Type, SQL string }` (dump.go).
`Type` is a Lean keyword, hence the trailing tick on that field. -/
structure Schema where
  Name : String
  Type' : String
  SQL : String
deriving DecidableEq, Repr

/-- Go `type sqlite3dumper struct { migration, dropIfExists, wrapWithTransaction bool }`. -/
structure Sqlite3Dumper where
  migration : Bool
  dropIfExists : Bool
  wrapWithTransaction : Bool
deriving DecidableEq, Repr

/-- The modelled database: the `sqlite_master` contents plus the error
behaviour of the engine on `sql.Open` and on each of the two catalog
queries (`Prepare`/`Query`/`Scan`/`Err` failures, collapsed to one
optional error message per query, as `getSchemas` returns the first). -/
structure DB where
  catalog : List MasterRow
  openErr : Option String
  tableQueryErr : Option String
  otherQueryErr : Option String
deriving DecidableEq, Repr

/-- Go error values produced by the dump code paths. -/
inductive GoErr where
  /-- the `*PathError` returned by `os.Stat` on a missing file -/
  | statErr (dbName : String)
  /-- an error from `sql.Open` -/
  | openErr (msg : String)
  /-- an error from a catalog query (`getSchemas`) -/
  | queryErr (msg : String)
  /-- an error returned by `out.Write` -/
  | writerErr (msg : String)
  /-- `fmt.Errorf("failed to write '%q': %s", statement, err)` in
  `writeDropStatements`: wraps the failed statement and the write error -/
  | wrappedWrite (statement : String) (e : GoErr)
deriving DecidableEq, Repr

/-- Go `strings.HasPrefix s p`, modelled on the character list of the
string (byte order and code-point order agree on UTF-8 text). -/
def strStartsWith (s p : String) : Bool := p.data.isPrefixOf s.data

/-- Go `strings.HasSuffix s p`, modelled on the character list. -/
def strEndsWith (s p : String) : Bool := p.data.isSuffixOf s.data

/-- Failure behaviour of the output stream: `beh n = some msg` means the
`n`-th call to `Write` (counting from 0) fails with error `msg`. -/
def WriteBeh := Nat → Option String

/-- A writer that never fails. -/
def behOk : WriteBeh := fun _ => none

/-- State of the modelled `io.Writer`: chunks successfully written so
far, and the number of `Write` calls made so far. -/
structure WState where
  chunks : List String
  calls : Nat
deriving DecidableEq, Repr

/-- The initial writer state. -/
def wInit : WState := ⟨[], 0⟩

/-- One `out.Write([]byte(s))` call: on failure the chunk is not
recorded and the error is returned; on success the chunk is appended. -/
def wWrite (beh : WriteBeh) (st : WState) (s : String) : WState × Option GoErr :=
  match beh st.calls with
  | some msg => (⟨st.chunks, st.calls + 1⟩, some (.writerErr msg))
  | none => (⟨st.chunks ++ [s], st.calls + 1⟩, none)

/-- The semantics of the table-schema catalog query of `dumpDB`
(dump.go lines 78-84) before ordering:
`SELECT name, type, sql FROM sqlite_master WHERE sql NOT NULL AND type == 'table'`,
scanned into `schema` records in catalog order. -/
def tableRowsUnsorted (cat : List MasterRow) : List Schema :=
  cat.filterMap fun r =>
    match r.sql with
    | none => none
    | some s => if r.type = "table" then some ⟨r.name, r.type, s⟩ else none

/-- The comparator realising `ORDER BY "name"` (SQLite BINARY collation:
lexicographic on bytes; on UTF-8 text this agrees with the lexicographic
order on the decoded code-point sequence, used here). -/
def schemaLE (a b : Schema) : Bool := decide (a.Name.data ≤ b.Name.data)

/-- The full semantics of the table-schema query: filtered rows ordered
by `name` ascending. -/
def tableRows (cat : List MasterRow) : List Schema :=
  (tableRowsUnsorted cat).mergeSort schemaLE

/-- The semantics of the other-schema catalog query of `dumpDB`
(dump.go lines 90-95):
`... WHERE sql NOT NULL AND type IN ('index', 'trigger', 'view')`,
no ordering clause, so emission order equals catalog return order. -/
def otherRows (cat : List MasterRow) : List Schema :=
  cat.filterMap fun r =>
    match r.sql with
    | none => none
    | some s =>
      if r.type = "index" ∨ r.type = "trigger" ∨ r.type = "view" then
        some ⟨r.name, r.type, s⟩
      else none

/-- Go `s3d.getSchemas(db, tableQuery)`: the engine either fails the
query or returns the filtered, ordered rows. -/
def getSchemasTable (db : DB) : Except GoErr (List Schema) :=
  match db.tableQueryErr with
  | some msg => .error (.queryErr msg)
  | none => .ok (tableRows db.catalog)

/-- Go `s3d.getSchemas(db, otherQuery)`. -/
def getSchemasOther (db : DB) : Except GoErr (List Schema) :=
  match db.otherQueryErr with
  | some msg => .error (.queryErr msg)
  | none => .ok (otherRows db.catalog)

/-- The statement (if any) produced for one schema record by
`writeDropStatements` (dump.go lines 154-166): `index` rows get
`DROP INDEX IF EXISTS <name>;`, `table` rows not carrying the reserved
`sqlite_` name get `DROP TABLE IF EXISTS <name>;`, system tables and
every other kind (trigger, view) produce nothing.  Note the name is
interpolated verbatim (`%s`), with no quoting. -/
def dropStatement (s : Schema) : Option String :=
  if s.Type' = "index" then
    some ("DROP INDEX IF EXISTS " ++ s.Name ++ ";\n")
  else if s.Type' = "table" then
    if strStartsWith s.Name "sqlite_" then none
    else some ("DROP TABLE IF EXISTS " ++ s.Name ++ ";\n")
  else none

/-- Go `(s3d *sqlite3dumper).writeDropStatements(w, schemas)`: writes
each drop statement in turn; a failed write aborts with the wrapped
error (the only place in the dump where a write error is checked). -/
def writeDropStatements (beh : WriteBeh) (st : WState) :
    List Schema → WState × Option GoErr
  | [] => (st, none)
  | s :: rest =>
    match dropStatement s with
    | none => writeDropStatements beh st rest
    | some statement =>
      match wWrite beh st statement with
      | (st', some e) => (st', some (.wrappedWrite statement e))
      | (st', none) => writeDropStatements beh st' rest

/-- The `_segments`/`_segdir`/`_stat`/`_idx`/`_docsize`/`_config`/
`_data`/`_content` suffix test of dump.go line 121 (FTS auxiliary
tables). -/
def hasFtsSuffix (n : String) : Bool :=
  strEndsWith n "_segments" || strEndsWith n "_segdir" || strEndsWith n "_stat" ||
  strEndsWith n "_idx" || strEndsWith n "_docsize" || strEndsWith n "_config" ||
  strEndsWith n "_data" || strEndsWith n "_content"

/-- The statement `DELETE FROM "sqlite_sequence";` + newline. -/
def deleteSeqStmt : String := "DELETE FROM \"sqlite_sequence\";\n"

/-- The statement `ANALYZE "sqlite_master";` + newline. -/
def analyzeStmt : String := "ANALYZE \"sqlite_master\";\n"

/-- The chunk (if any) written for one table-schema record by the table
phase of `dumpDB` (dump.go lines 107-129): `sqlite_sequence` maps to a
`DELETE`, `sqlite3_stat1` to an `ANALYZE`, other reserved `sqlite_`
names and FTS auxiliary suffixes are skipped, and an ordinary table gets
its CREATE statement `SQL;` + newline unless migration mode is on. -/
def tableStmt (migration : Bool) (s : Schema) : Option String :=
  if s.Name = "sqlite_sequence" then some deleteSeqStmt
  else if s.Name = "sqlite3_stat1" then some analyzeStmt
  else if strStartsWith s.Name "sqlite_" then none
  else if hasFtsSuffix s.Name then none
  else if migration then none
  else some (s.SQL ++ ";\n")

/-- The table phase of `dumpDB`: write each table statement; the return
values of `out.Write` are discarded by the Go code, so failures are
ignored and the loop always continues. -/
def tablePhase (migration : Bool) (beh : WriteBeh) (st : WState) :
    List Schema → WState
  | [] => st
  | s :: rest =>
    match tableStmt migration s with
    | none => tablePhase migration beh st rest
    | some stmt => tablePhase migration beh (wWrite beh st stmt).1 rest

/-- The other-schema phase of `dumpDB` (lines 139-141): write
`schema.SQL;` + newline for every row, write errors again discarded. -/
def otherPhase (beh : WriteBeh) (st : WState) : List Schema → WState
  | [] => st
  | s :: rest => otherPhase beh (wWrite beh st (s.SQL ++ ";\n")).1 rest

/-- Lines 73-75 of `dumpDB`: the writer state after the optional
`BEGIN TRANSACTION;` write, whose error is discarded by the Go code. -/
def envBeginState (s3d : Sqlite3Dumper) (beh : WriteBeh) : WState :=
  if s3d.wrapWithTransaction then (wWrite beh wInit "BEGIN TRANSACTION;\n").1
  else wInit

/-- Go `(s3d *sqlite3dumper).dumpDB(db, out)` (dump.go lines 72-148),
returning the final writer state and the returned error. -/
def dumpDB (s3d : Sqlite3Dumper) (db : DB) (beh : WriteBeh) :
    WState × Option GoErr :=
  let st1 := envBeginState s3d beh
  match getSchemasTable db with
  | .error e => (st1, some e)
  | .ok tableSchemas =>
    match getSchemasOther db with
    | .error e => (st1, some e)
    | .ok otherSchemas =>
      let afterDrop :=
        if s3d.dropIfExists then
          writeDropStatements beh st1 (otherSchemas ++ tableSchemas)
        else (st1, none)
      match afterDrop with
      | (st2, some e) => (st2, some e)
      | (st2, none) =>
        let st3 := tablePhase s3d.migration beh st2 tableSchemas
        let st4 := otherPhase beh st3 otherSchemas
        let st5 :=
          if s3d.wrapWithTransaction then (wWrite beh st4 "COMMIT;\n").1
          else st4
        (st5, none)

/-- Go `(s3d *sqlite3dumper).dump(dbName, out)` (dump.go lines 51-64):
`os.Stat` first — when the file does not exist the function returns with
`err` still holding the non-nil `os.Stat` error (the named return value
was just assigned it), having written nothing.  Otherwise `sql.Open`,
then `dumpDB`.  `dbExists` models the `os.Stat`/`os.IsNotExist` check. -/
def dump (s3d : Sqlite3Dumper) (dbName : String) (dbExists : Bool)
    (db : DB) (beh : WriteBeh) : WState × Option GoErr :=
  if dbExists = false then (wInit, some (.statErr dbName))
  else
    match db.openErr with
    | some msg => (wInit, some (.openErr msg))
    | none => dumpDB s3d db beh

/-- A functional option, Go `type Option func(*sqlite3dumper)`
(declared outside dump.go). -/
def DumpOpt := Sqlite3Dumper → Sqlite3Dumper

/-- Modelled from the spec: the `WithMigration()` functional option is
declared outside the given source files; per the configuration surface
(§6, "schema-only / migration mode") it pins the migration flag on and
touches nothing else. -/
def WithMigration : DumpOpt := fun d => { d with migration := true }

/-- Go `newSqlite3Dumper(opts ...Option)` (dump.go lines 19-32):
defaults `wrapWithTransaction` to true, then applies each option in
order (with the early return for an empty option list). -/
def newSqlite3Dumper (opts : List DumpOpt) : Sqlite3Dumper :=
  let dumper : Sqlite3Dumper := ⟨false, false, true⟩
  if opts.length = 0 then dumper
  else opts.foldl (fun d o => o d) dumper

/-- Go `DumpMigration(db, out)` (dump.go lines 38-41). -/
def DumpMigration (db : DB) (beh : WriteBeh) : WState × Option GoErr :=
  dumpDB (newSqlite3Dumper [WithMigration]) db beh

/-- Go `DumpDB(db, out, opts...)` (dump.go lines 67-70). -/
def DumpDB (db : DB) (beh : WriteBeh) (opts : List DumpOpt) :
    WState × Option GoErr :=
  dumpDB (newSqlite3Dumper opts) db beh

/-- Go `Dump(dbName, out, opts...)` (dump.go lines 46-49). -/
def Dump (dbName : String) (dbExists : Bool) (db : DB) (beh : WriteBeh)
    (opts : List DumpOpt) : WState × Option GoErr :=
  dump (newSqlite3Dumper opts) dbName dbExists db beh

/-! ### Derived descriptions of the output, used to state the claims -/

/-- The chunks a non-failing writer holds after a successful `dumpDB`
on a database whose engine reports no errors. -/
def dumpChunks (s3d : Sqlite3Dumper) (cat : List MasterRow) : List String :=
  (dumpDB s3d ⟨cat, none, none, none⟩ behOk).1.chunks

/-- The optional `BEGIN TRANSACTION;` chunk. -/
def envBeginChunks (w : Bool) : List String :=
  if w then ["BEGIN TRANSACTION;\n"] else []

/-- The optional `COMMIT;` chunk. -/
def envCommitChunks (w : Bool) : List String :=
  if w then ["COMMIT;\n"] else []

/-- The chunks of the drop phase (other-schema objects first, then
tables, as `dumpDB` appends `tableSchemas` after `otherSchemas`). -/
def dropSeg (d : Bool) (cat : List MasterRow) : List String :=
  if d then (otherRows cat ++ tableRows cat).filterMap dropStatement else []

/-- The chunks of the table phase. -/
def tableSeg (m : Bool) (cat : List MasterRow) : List String :=
  (tableRows cat).filterMap (tableStmt m)

/-- The chunks of the other-schema phase. -/
def otherSeg (cat : List MasterRow) : List String :=
  (otherRows cat).map fun s => s.SQL ++ ";\n"

/-! ### The spec's description of identifier escaping (for C3 only) -/

/-- Following the spec's words: every embedded double-quote character
doubled. -/
def escapeDoubleQuotes (n : String) : String :=
  ⟨n.data.foldr (fun c acc => if c = '"' then '"' :: '"' :: acc else c :: acc) []⟩

/-- Following the spec's words (claim C3): the drop statement with the
name escaped and then wrapped in double quotes, with the same
kind/system-table selection as the code. -/
def dropStatementSpec (s : Schema) : Option String :=
  if s.Type' = "index" then
    some ("DROP INDEX IF EXISTS \"" ++ escapeDoubleQuotes s.Name ++ "\";\n")
  else if s.Type' = "table" then
    if strStartsWith s.Name "sqlite_" then none
    else some ("DROP TABLE IF EXISTS \"" ++ escapeDoubleQuotes s.Name ++ "\";\n")
  else none

/-- A writer behaviour whose very first `Write` call fails. -/
def behFailFirst : WriteBeh :=
  fun n => if n = 0 then some "disk full" else none

/-! ### Helper lemmas about the writer and the phases -/

theorem wWrite_behOk (st : WState) (s : String) :
    wWrite behOk st s = (⟨st.chunks ++ [s], st.calls + 1⟩, none) := rfl

theorem writeDropStatements_behOk (l : List Schema) : ∀ (st : WState),
    writeDropStatements behOk st l =
      (⟨st.chunks ++ l.filterMap dropStatement,
        st.calls + (l.filterMap dropStatement).length⟩, none) := by
  induction l with
  | nil => intro st; simp [writeDropStatements]
  | cons s rest ih =>
    intro st
    cases h : dropStatement s with
    | none => simp [writeDropStatements, h, ih, List.filterMap_cons]
    | some stmt =>
      simp [writeDropStatements, h, wWrite, behOk, ih, List.filterMap_cons,
        List.append_assoc, Prod.mk.injEq, WState.mk.injEq]
      try omega

theorem tablePhase_behOk (m : Bool) (l : List Schema) : ∀ (st : WState),
    tablePhase m behOk st l =
      ⟨st.chunks ++ l.filterMap (tableStmt m),
       st.calls + (l.filterMap (tableStmt m)).length⟩ := by
  induction l with
  | nil => intro st; simp [tablePhase]
  | cons s rest ih =>
    intro st
    cases h : tableStmt m s with
    | none => simp [tablePhase, h, ih, List.filterMap_cons]
    | some stmt =>
      simp [tablePhase, h, wWrite, behOk, ih, List.filterMap_cons,
        List.append_assoc, Prod.mk.injEq, WState.mk.injEq]
      try omega

theorem otherPhase_behOk (l : List Schema) : ∀ (st : WState),
    otherPhase behOk st l =
      ⟨st.chunks ++ l.map (fun s => s.SQL ++ ";\n"), st.calls + l.length⟩ := by
  induction l with
  | nil => intro st; simp [otherPhase]
  | cons s rest ih =>
    intro st
    simp [otherPhase, wWrite, behOk, ih, List.map_cons,
      List.append_assoc, Prod.mk.injEq, WState.mk.injEq]
    try omega

/-- Structure of the successful dump output: envelope, optional drop
segment, table segment, other-schema segment, envelope. -/
theorem dumpChunks_eq (s3d : Sqlite3Dumper) (cat : List MasterRow) :
    dumpChunks s3d cat =
      envBeginChunks s3d.wrapWithTransaction ++ dropSeg s3d.dropIfExists cat ++
        tableSeg s3d.migration cat ++ otherSeg cat ++
        envCommitChunks s3d.wrapWithTransaction := by
  unfold dumpChunks dumpDB
  by_cases hw : s3d.wrapWithTransaction <;> by_cases hd : s3d.dropIfExists <;>
    simp [hw, hd, getSchemasTable, getSchemasOther, envBeginState, wWrite, behOk,
      wInit, writeDropStatements_behOk, tablePhase_behOk, otherPhase_behOk,
      envBeginChunks, envCommitChunks, dropSeg, tableSeg, otherSeg,
      List.append_assoc]

/-- With a non-failing writer and an error-free engine, `dumpDB`
returns no error. -/
theorem dumpDB_err_behOk (s3d : Sqlite3Dumper) (oe : Option String)
    (cat : List MasterRow) :
    (dumpDB s3d ⟨cat, oe, none, none⟩ behOk).2 = none := by
  unfold dumpDB
  by_cases hd : s3d.dropIfExists <;>
    simp [hd, getSchemasTable, getSchemasOther, writeDropStatements_behOk]

/-- Every statement of the drop phase embeds the object's name
verbatim, in one of the two fixed templates. -/
theorem dropStatement_shape (s : Schema) (stmt : String)
    (h : dropStatement s = some stmt) :
    stmt = "DROP INDEX IF EXISTS " ++ s.Name ++ ";\n" ∨
    stmt = "DROP TABLE IF EXISTS " ++ s.Name ++ ";\n" := by
  unfold dropStatement at h
  split_ifs at h with h1 h2 h3
  · exact Or.inl (Option.some.inj h).symm
  · exact Or.inr (Option.some.inj h).symm

/-- Two strings differing within the first `n` characters stay
different after appending twice on the right. -/
theorem append2_ne {a b : String} (x y : String) (n : Nat)
    (hlen : n ≤ a.data.length) (h : a.data.take n ≠ b.data.take n) :
    a ++ x ++ y ≠ b := by
  intro he
  apply h
  have h2 := congrArg (fun s : String => s.data.take n) he
  simp only [String.data_append] at h2
  rw [List.append_assoc, List.take_append_of_le_length hlen] at h2
  exact h2

/-- No drop statement coincides with the `sqlite_sequence` reset
statement. -/
theorem dropStatement_ne_delete (s : Schema) (stmt : String)
    (h : dropStatement s = some stmt) : stmt ≠ deleteSeqStmt := by
  rcases dropStatement_shape s stmt h with h' | h' <;> rw [h'] <;>
    exact append2_ne _ _ 2 (by decide) (by decide)

theorem tableRows_nil : tableRows [] = [] := by
  simp [tableRows, tableRowsUnsorted, List.mergeSort_nil]

theorem otherRows_nil : otherRows [] = [] := rfl

/-- Every record returned by the table-schema query has kind `table`
(the query filters on it). -/
theorem tableRows_kind (cat : List MasterRow) :
    ∀ s ∈ tableRows cat, s.Type' = "table" := by
  intro s hs
  rw [tableRows, List.mem_mergeSort, tableRowsUnsorted, List.mem_filterMap] at hs
  obtain ⟨r, _, hr⟩ := hs
  cases hsql : r.sql with
  | none => rw [hsql] at hr; cases hr
  | some q =>
    by_cases ht : r.type = "table"
    · simp only [hsql, ht, if_pos, Option.some.injEq] at hr
      rw [← hr]
    · simp [hsql, ht] at hr

/-- In the table phase, the reset statement for `sqlite_sequence` is
written exactly once per catalog entry of that name (and never as the
image of another branch, provided no CREATE text collides with it). -/
theorem count_delete_filterMap (m : Bool) (l : List Schema)
    (h : ∀ s ∈ l, s.SQL ++ ";\n" ≠ deleteSeqStmt) :
    (l.filterMap (tableStmt m)).count deleteSeqStmt =
      l.countP fun s => decide (s.Name = "sqlite_sequence") := by
  induction l with
  | nil => simp
  | cons s rest ih =>
    have hh : ∀ t ∈ rest, t.SQL ++ ";\n" ≠ deleteSeqStmt := fun t ht =>
      h t (List.mem_cons_of_mem _ ht)
    have hs : s.SQL ++ ";\n" ≠ deleteSeqStmt := h s (List.mem_cons_self _ _)
    by_cases h1 : s.Name = "sqlite_sequence"
    · simp [List.filterMap_cons, tableStmt, h1, List.count_cons, List.countP_cons,
        ih hh]
    · by_cases h2 : s.Name = "sqlite3_stat1"
      · have hne : analyzeStmt ≠ deleteSeqStmt := by decide
        simp [List.filterMap_cons, tableStmt, h1, h2, List.count_cons,
          List.countP_cons, ih hh, hne]
      · by_cases h3 : strStartsWith s.Name "sqlite_"
        · simp [List.filterMap_cons, tableStmt, h1, h2, h3, List.countP_cons, ih hh]
        · by_cases h4 : hasFtsSuffix s.Name
          · simp [List.filterMap_cons, tableStmt, h1, h2, h3, h4,
              List.countP_cons, ih hh]
          · cases m with
            | true =>
              simp [List.filterMap_cons, tableStmt, h1, h2, h3, h4,
                List.countP_cons, ih hh]
            | false =>
              simp [List.filterMap_cons, tableStmt, h1, h2, h3, h4,
                List.count_cons, List.countP_cons, ih hh, hs]

/-! ### Claims -/

/-- C1 (counterexample): calling `Dump` on a database path that does not
exist does NOT return `nil`: the named return value still holds the
non-nil `os.Stat` error when `dump` returns early. -/
theorem C1_counterexample :
    (Dump "missing.db" false ⟨[], none, none, none⟩ behOk []).2 ≠ none := by
  decide

/-- C1 (amended): for every output writer and configuration, calling
`Dump` with a database source path that does not exist writes nothing to
the output stream and returns the (non-nil) `os.Stat` not-exist error —
not `nil` as the claim stated. -/
theorem C1_missing_source (opts : List DumpOpt) (dbName : String) (db : DB)
    (beh : WriteBeh) :
    Dump dbName false db beh opts = (wInit, some (.statErr dbName)) := rfl

/-- C2 (counterexample): with the default configuration, the very first
write to the output stream (the `BEGIN TRANSACTION;` envelope) fails,
two writes are still attempted, and `dumpDB` nevertheless returns no
error — refuting "if any write to the output stream fails ... the
operation returns that write error". -/
theorem C2_counterexample :
    behFailFirst 0 = some "disk full" ∧
    (dumpDB (newSqlite3Dumper []) ⟨[], none, none, none⟩ behFailFirst).1.calls = 2 ∧
    (dumpDB (newSqlite3Dumper []) ⟨[], none, none, none⟩ behFailFirst).2 = none := by
  refine ⟨rfl, ?_, ?_⟩ <;>
    simp [dumpDB, getSchemasTable, getSchemasOther, newSqlite3Dumper,
      envBeginState, wWrite, wInit, behFailFirst, tableRows_nil, otherRows_nil,
      tablePhase, otherPhase]

/-- C2 (amended): the dump returns the first catalog-query error (the
table query is checked before the other-schema query); a write failure
is checked and propagated only inside the drop phase, where it aborts
with the wrapped write error; when the drop phase is disabled the
operation returns no error regardless of how many writes fail. -/
theorem C2_error_propagation :
    (∀ (s3d : Sqlite3Dumper) (cat : List MasterRow) (oe o2 : Option String)
        (beh : WriteBeh) (msg : String),
      (dumpDB s3d ⟨cat, oe, some msg, o2⟩ beh).2 = some (.queryErr msg)) ∧
    (∀ (s3d : Sqlite3Dumper) (cat : List MasterRow) (oe : Option String)
        (beh : WriteBeh) (msg : String),
      (dumpDB s3d ⟨cat, oe, none, some msg⟩ beh).2 = some (.queryErr msg)) ∧
    (∀ (s3d : Sqlite3Dumper) (cat : List MasterRow) (oe : Option String)
        (beh : WriteBeh), s3d.dropIfExists = false →
      (dumpDB s3d ⟨cat, oe, none, none⟩ beh).2 = none) ∧
    (∀ (s3d : Sqlite3Dumper) (cat : List MasterRow) (oe : Option String)
        (beh : WriteBeh), s3d.dropIfExists = true →
      (dumpDB s3d ⟨cat, oe, none, none⟩ beh).2 =
        (writeDropStatements beh (envBeginState s3d beh)
          (otherRows cat ++ tableRows cat)).2) ∧
    (∀ (beh : WriteBeh) (st : WState) (l : List Schema),
      (writeDropStatements beh st l).2 = none ∨
      ∃ stmt msg,
        (writeDropStatements beh st l).2 =
          some (.wrappedWrite stmt (.writerErr msg))) := by
  refine ⟨?_, ?_, ?_, ?_, ?_⟩
  · intro s3d cat oe o2 beh msg
    simp [dumpDB, getSchemasTable]
  · intro s3d cat oe beh msg
    simp [dumpDB, getSchemasTable, getSchemasOther]
  · intro s3d cat oe beh hd
    simp [dumpDB, getSchemasTable, getSchemasOther, hd]
  · intro s3d cat oe beh hd
    rcases h : writeDropStatements beh (envBeginState s3d beh)
        (otherRows cat ++ tableRows cat) with ⟨st2, e⟩
    cases e <;> simp [dumpDB, getSchemasTable, getSchemasOther, hd, h]
  · intro beh st l
    induction l generalizing st with
    | nil => exact Or.inl rfl
    | cons s rest ih =>
      cases h : dropStatement s with
      | none => simpa [writeDropStatements, h] using ih st
      | some stmt =>
        cases hw : beh st.calls with
        | some msg =>
          exact Or.inr ⟨stmt, msg, by simp [writeDropStatements, h, wWrite, hw]⟩
        | none =>
          simpa [writeDropStatements, h, wWrite, hw] using
            ih ⟨st.chunks ++ [stmt], st.calls + 1⟩

/-- C2 (witness). -/
theorem C2_error_propagation_witness :
    (dumpDB ⟨false, false, true⟩ ⟨[], none, some "boom", none⟩ behOk).2 =
      some (.queryErr "boom") ∧
    ((⟨false, true, true⟩ : Sqlite3Dumper).dropIfExists = true ∧
      (dumpDB ⟨false, true, true⟩ ⟨[], none, none, none⟩ behOk).2 =
        (writeDropStatements behOk (envBeginState ⟨false, true, true⟩ behOk)
          (otherRows [] ++ tableRows [])).2) :=
  ⟨C2_error_propagation.1 ⟨false, false, true⟩ [] none none behOk "boom",
   ⟨rfl, C2_error_propagation.2.2.2.1 ⟨false, true, true⟩ [] none behOk rfl⟩⟩

/-- C3 (counterexample): for a table whose name embeds a double quote,
the generated drop statement embeds the name raw; it is not the
escaped-and-quoted statement the claim describes. -/
theorem C3_counterexample :
    dropStatement ⟨"a\"b", "table", "x"⟩ = some "DROP TABLE IF EXISTS a\"b;\n" ∧
    dropStatementSpec ⟨"a\"b", "table", "x"⟩ =
      some "DROP TABLE IF EXISTS \"a\"\"b\";\n" ∧
    dropStatement ⟨"a\"b", "table", "x"⟩ ≠
      dropStatementSpec ⟨"a\"b", "table", "x"⟩ := by
  decide

/-- C3 (amended): every statement of the drop phase embeds the object
name verbatim — no doubling of embedded double quotes and no wrapping
quotes — in one of the two templates
`DROP INDEX IF EXISTS <name>;` / `DROP TABLE IF EXISTS <name>;`. -/
theorem C3_drop_names_unescaped (s : Schema) (stmt : String)
    (h : dropStatement s = some stmt) :
    stmt = "DROP INDEX IF EXISTS " ++ s.Name ++ ";\n" ∨
    stmt = "DROP TABLE IF EXISTS " ++ s.Name ++ ";\n" :=
  dropStatement_shape s stmt h

/-- C3 (witness). -/
theorem C3_drop_names_unescaped_witness :
    dropStatement ⟨"t1", "table", "x"⟩ = some "DROP TABLE IF EXISTS t1;\n" ∧
    ("DROP TABLE IF EXISTS t1;\n" = "DROP INDEX IF EXISTS " ++ "t1" ++ ";\n" ∨
     "DROP TABLE IF EXISTS t1;\n" = "DROP TABLE IF EXISTS " ++ "t1" ++ ";\n") :=
  ⟨by decide,
   C3_drop_names_unescaped ⟨"t1", "table", "x"⟩ "DROP TABLE IF EXISTS t1;\n"
     (by decide)⟩

unseal List.merge List.mergeSort in
/-- C4 (counterexample): with drop-if-exists enabled, a table named with
the FTS auxiliary suffix `_docsize` does produce a statement: the drop
phase has no suffix filter, so the dump output is exactly one
`DROP TABLE IF EXISTS` statement mentioning that table. -/
theorem C4_counterexample :
    dumpChunks ⟨false, true, false⟩
        [⟨"foo_docsize", "table", some "CREATE TABLE foo_docsize(x)"⟩] =
      ["DROP TABLE IF EXISTS foo_docsize;\n"] ∧
    "DROP TABLE IF EXISTS foo_docsize;\n" ∈
      dumpChunks ⟨false, true, false⟩
        [⟨"foo_docsize", "table", some "CREATE TABLE foo_docsize(x)"⟩] := by
  decide

/-- C4 (amended): a table whose name carries an FTS auxiliary suffix
never receives a CREATE (or any table-phase) statement, but when
drop-if-exists is enabled the drop phase still emits a
`DROP TABLE IF EXISTS` statement for it unless the name also carries the
reserved `sqlite_` prefix. -/
theorem C4_fts_tables (m : Bool) (s : Schema)
    (hf : hasFtsSuffix s.Name = true) :
    tableStmt m s = none ∧
    (s.Type' = "table" → strStartsWith s.Name "sqlite_" = false →
      dropStatement s = some ("DROP TABLE IF EXISTS " ++ s.Name ++ ";\n")) := by
  constructor
  · by_cases h1 : s.Name = "sqlite_sequence"
    · rw [h1] at hf; exact absurd hf (by decide)
    · by_cases h2 : s.Name = "sqlite3_stat1"
      · rw [h2] at hf; exact absurd hf (by decide)
      · simp [tableStmt, h1, h2, hf]
  · intro ht hs
    simp [dropStatement, ht, hs]

/-- C5: the successful dump output consists of the envelope, the
optional drop segment, then all table-phase statements in the order of
the name-sorted table query, then all other-schema statements in
catalog return order, then the closing envelope; and (for catalogs with
distinct table names) the table records are in strictly ascending
lexicographic name order. -/
theorem C5_emission_order (s3d : Sqlite3Dumper) (cat : List MasterRow)
    (hnd : ((tableRowsUnsorted cat).map Schema.Name).Nodup) :
    dumpChunks s3d cat =
      envBeginChunks s3d.wrapWithTransaction ++ dropSeg s3d.dropIfExists cat ++
        (tableRows cat).filterMap (tableStmt s3d.migration) ++
        (otherRows cat).map (fun s => s.SQL ++ ";\n") ++
        envCommitChunks s3d.wrapWithTransaction ∧
    (tableRows cat).Pairwise (fun a b => a.Name.data < b.Name.data) := by
  constructor
  · exact dumpChunks_eq s3d cat
  · have htrans : ∀ a b c : Schema, schemaLE a b = true → schemaLE b c = true →
        schemaLE a c = true := by
      intro a b c h1 h2
      simp only [schemaLE, decide_eq_true_eq] at *
      exact le_trans h1 h2
    have htot : ∀ a b : Schema, (schemaLE a b || schemaLE b a) = true := by
      intro a b
      simp only [schemaLE, Bool.or_eq_true, decide_eq_true_eq]
      exact le_total _ _
    have hsorted : (tableRows cat).Pairwise (fun a b => schemaLE a b = true) :=
      List.sorted_mergeSort htrans htot _
    have hperm : (tableRows cat).Perm (tableRowsUnsorted cat) :=
      List.mergeSort_perm _ _
    have hnd2 : ((tableRows cat).map Schema.Name).Nodup :=
      ((hperm.map Schema.Name).symm).nodup hnd
    have hne : (tableRows cat).Pairwise (fun a b => a.Name ≠ b.Name) :=
      List.pairwise_map.mp hnd2
    have hand := hsorted.and hne
    refine hand.imp ?_
    intro a b hab
    refine lt_of_le_of_ne ?_ ?_
    · have := hab.1
      simpa [schemaLE] using this
    · intro hdata
      apply hab.2
      cases hn : a.Name
      cases hm : b.Name
      rw [hn, hm] at hdata
      simp only at hdata
      exact congrArg String.mk hdata

/-- C5 (witness). -/
theorem C5_emission_order_witness :
    ((tableRowsUnsorted [⟨"b", "table", some "CREATE TABLE b(x)"⟩,
        ⟨"a", "table", some "CREATE TABLE a(y)"⟩,
        ⟨"i", "index", some "CREATE INDEX i ON a(y)"⟩]).map Schema.Name).Nodup ∧
    (dumpChunks ⟨false, false, true⟩ [⟨"b", "table", some "CREATE TABLE b(x)"⟩,
        ⟨"a", "table", some "CREATE TABLE a(y)"⟩,
        ⟨"i", "index", some "CREATE INDEX i ON a(y)"⟩] =
      envBeginChunks true ++
        dropSeg false [⟨"b", "table", some "CREATE TABLE b(x)"⟩,
          ⟨"a", "table", some "CREATE TABLE a(y)"⟩,
          ⟨"i", "index", some "CREATE INDEX i ON a(y)"⟩] ++
        (tableRows [⟨"b", "table", some "CREATE TABLE b(x)"⟩,
          ⟨"a", "table", some "CREATE TABLE a(y)"⟩,
          ⟨"i", "index", some "CREATE INDEX i ON a(y)"⟩]).filterMap (tableStmt false) ++
        (otherRows [⟨"b", "table", some "CREATE TABLE b(x)"⟩,
          ⟨"a", "table", some "CREATE TABLE a(y)"⟩,
          ⟨"i", "index", some "CREATE INDEX i ON a(y)"⟩]).map (fun s => s.SQL ++ ";\n") ++
        envCommitChunks true ∧
    (tableRows [⟨"b", "table", some "CREATE TABLE b(x)"⟩,
        ⟨"a", "table", some "CREATE TABLE a(y)"⟩,
        ⟨"i", "index", some "CREATE INDEX i ON a(y)"⟩]).Pairwise
      (fun a b => a.Name.data < b.Name.data)) :=
  ⟨by decide,
   C5_emission_order ⟨false, false, true⟩
     [⟨"b", "table", some "CREATE TABLE b(x)"⟩,
      ⟨"a", "table", some "CREATE TABLE a(y)"⟩,
      ⟨"i", "index", some "CREATE INDEX i ON a(y)"⟩] (by decide)⟩

/-- C6: if the table catalog holds exactly one entry named
`sqlite_sequence` (and no creation text collides with the reset
statement), the dump output contains the statement
`DELETE FROM "sqlite_sequence";` exactly once, the table phase emits
exactly that statement (never a CREATE) for the entry, and the drop
phase produces nothing for it. -/
theorem C6_sqlite_sequence (s3d : Sqlite3Dumper) (cat : List MasterRow)
    (h1 : (tableRows cat).countP
      (fun s => decide (s.Name = "sqlite_sequence")) = 1)
    (h2 : ∀ s ∈ tableRows cat, s.SQL ++ ";\n" ≠ deleteSeqStmt)
    (h3 : ∀ s ∈ otherRows cat, s.SQL ++ ";\n" ≠ deleteSeqStmt) :
    (dumpChunks s3d cat).count deleteSeqStmt = 1 ∧
    ∀ s ∈ tableRows cat, s.Name = "sqlite_sequence" →
      tableStmt s3d.migration s = some deleteSeqStmt ∧
      dropStatement s = none := by
  constructor
  · rw [dumpChunks_eq, List.count_append, List.count_append,
      List.count_append, List.count_append]
    have e1 : (envBeginChunks s3d.wrapWithTransaction).count deleteSeqStmt = 0 := by
      cases hw : s3d.wrapWithTransaction <;> decide
    have e2 : (dropSeg s3d.dropIfExists cat).count deleteSeqStmt = 0 := by
      cases hd : s3d.dropIfExists
      · simp [dropSeg]
      · rw [dropSeg, if_pos rfl, List.count_eq_zero]
        intro hmem
        rw [List.mem_filterMap] at hmem
        obtain ⟨s, _, hds⟩ := hmem
        exact dropStatement_ne_delete s _ hds rfl
    have e3 : (tableSeg s3d.migration cat).count deleteSeqStmt = 1 := by
      rw [tableSeg, count_delete_filterMap _ _ h2, h1]
    have e4 : (otherSeg cat).count deleteSeqStmt = 0 := by
      rw [otherSeg, List.count_eq_zero]
      intro hmem
      rw [List.mem_map] at hmem
      obtain ⟨s, hs, heq⟩ := hmem
      exact h3 s hs heq
    have e5 : (envCommitChunks s3d.wrapWithTransaction).count deleteSeqStmt = 0 := by
      cases hw : s3d.wrapWithTransaction <;> decide
    rw [e1, e2, e3, e4, e5]
  · intro s hs hname
    constructor
    · simp [tableStmt, hname]
    · have hk := tableRows_kind cat s hs
      have hpre : strStartsWith "sqlite_sequence" "sqlite_" = true := by decide
      rw [← hname] at hpre
      simp [dropStatement, hk, hpre]

/-- C6 (witness). -/
theorem C6_sqlite_sequence_witness :
    ((tableRows [⟨"sqlite_sequence", "table",
          some "CREATE TABLE sqlite_sequence(name,seq)"⟩,
        ⟨"t", "table", some "CREATE TABLE t(x)"⟩]).countP
        (fun s => decide (s.Name = "sqlite_sequence")) = 1) ∧
    ((dumpChunks ⟨false, false, true⟩
        [⟨"sqlite_sequence", "table",
          some "CREATE TABLE sqlite_sequence(name,seq)"⟩,
         ⟨"t", "table", some "CREATE TABLE t(x)"⟩]).count deleteSeqStmt = 1 ∧
      ∀ s ∈ tableRows [⟨"sqlite_sequence", "table",
          some "CREATE TABLE sqlite_sequence(name,seq)"⟩,
        ⟨"t", "table", some "CREATE TABLE t(x)"⟩],
        s.Name = "sqlite_sequence" →
        tableStmt false s = some deleteSeqStmt ∧ dropStatement s = none) :=
  ⟨by unfold tableRows; rw [List.mergeSort_of_sorted (by decide)]; decide,
   C6_sqlite_sequence ⟨false, false, true⟩
     [⟨"sqlite_sequence", "table", some "CREATE TABLE sqlite_sequence(name,seq)"⟩,
      ⟨"t", "table", some "CREATE TABLE t(x)"⟩]
     (by unfold tableRows; rw [List.mergeSort_of_sorted (by decide)]; decide)
     (by unfold tableRows; rw [List.mergeSort_of_sorted (by decide)]; decide)
     (by decide)⟩

/-- C7: with drop-if-exists enabled, the drop segment precedes every
CREATE statement of the table and other-schema phases, other-schema
drops precede table drops (`otherSchemas ++ tableSchemas`), each index
record yields exactly one `DROP INDEX IF EXISTS` statement, each
non-system table record exactly one `DROP TABLE IF EXISTS` statement,
system tables none, and triggers/views none. -/
theorem C7_drops (s3d : Sqlite3Dumper) (cat : List MasterRow)
    (hd : s3d.dropIfExists = true) :
    dumpChunks s3d cat =
      envBeginChunks s3d.wrapWithTransaction ++
        (otherRows cat ++ tableRows cat).filterMap dropStatement ++
        tableSeg s3d.migration cat ++ otherSeg cat ++
        envCommitChunks s3d.wrapWithTransaction ∧
    (∀ s : Schema, s.Type' = "index" →
      dropStatement s = some ("DROP INDEX IF EXISTS " ++ s.Name ++ ";\n")) ∧
    (∀ s : Schema, s.Type' = "table" → strStartsWith s.Name "sqlite_" = false →
      dropStatement s = some ("DROP TABLE IF EXISTS " ++ s.Name ++ ";\n")) ∧
    (∀ s : Schema, s.Type' = "table" → strStartsWith s.Name "sqlite_" = true →
      dropStatement s = none) ∧
    (∀ s : Schema, s.Type' = "trigger" ∨ s.Type' = "view" →
      dropStatement s = none) := by
  refine ⟨?_, ?_, ?_, ?_, ?_⟩
  · rw [dumpChunks_eq s3d cat]
    simp [dropSeg, hd]
  · intro s h
    simp [dropStatement, h]
  · intro s h hs
    simp [dropStatement, h, hs]
  · intro s h hs
    simp [dropStatement, h, hs]
  · intro s h
    rcases h with h | h <;> simp [dropStatement, h]

/-- C7 (witness). -/
theorem C7_drops_witness :
    (⟨false, true, true⟩ : Sqlite3Dumper).dropIfExists = true ∧
    dumpChunks ⟨false, true, true⟩
        [⟨"t", "table", some "CREATE TABLE t(x)"⟩,
         ⟨"i", "index", some "CREATE INDEX i ON t(x)"⟩] =
      envBeginChunks true ++
        (otherRows [⟨"t", "table", some "CREATE TABLE t(x)"⟩,
            ⟨"i", "index", some "CREATE INDEX i ON t(x)"⟩] ++
          tableRows [⟨"t", "table", some "CREATE TABLE t(x)"⟩,
            ⟨"i", "index", some "CREATE INDEX i ON t(x)"⟩]).filterMap
          dropStatement ++
        tableSeg false [⟨"t", "table", some "CREATE TABLE t(x)"⟩,
          ⟨"i", "index", some "CREATE INDEX i ON t(x)"⟩] ++
        otherSeg [⟨"t", "table", some "CREATE TABLE t(x)"⟩,
          ⟨"i", "index", some "CREATE INDEX i ON t(x)"⟩] ++
        envCommitChunks true :=
  ⟨rfl,
   (C7_drops ⟨false, true, true⟩
     [⟨"t", "table", some "CREATE TABLE t(x)"⟩,
      ⟨"i", "index", some "CREATE INDEX i ON t(x)"⟩] rfl).1⟩

/-- C8: a database whose catalog yields no table rows and no
other-schema rows dumps, under the default configuration, to exactly
the transaction envelope `BEGIN TRANSACTION;\nCOMMIT;\n` with no error;
with transaction wrapping disabled the output is empty. -/
theorem C8_empty_catalog (cat : List MasterRow) (ht : tableRows cat = [])
    (ho : otherRows cat = []) :
    String.join (dumpChunks (newSqlite3Dumper []) cat) =
      "BEGIN TRANSACTION;\nCOMMIT;\n" ∧
    (dumpDB (newSqlite3Dumper []) ⟨cat, none, none, none⟩ behOk).2 = none ∧
    dumpChunks ⟨false, false, false⟩ cat = [] := by
  refine ⟨?_, dumpDB_err_behOk _ _ _, ?_⟩
  · rw [dumpChunks_eq]
    simp [newSqlite3Dumper, ht, ho, envBeginChunks, envCommitChunks, dropSeg,
      tableSeg, otherSeg]
    decide
  · rw [dumpChunks_eq]
    simp [ht, ho, envBeginChunks, envCommitChunks, dropSeg, tableSeg, otherSeg]

/-- C8 (witness). -/
theorem C8_empty_catalog_witness :
    (tableRows [] = [] ∧ otherRows [] = []) ∧
    (String.join (dumpChunks (newSqlite3Dumper []) []) =
      "BEGIN TRANSACTION;\nCOMMIT;\n" ∧
    (dumpDB (newSqlite3Dumper []) ⟨[], none, none, none⟩ behOk).2 = none ∧
    dumpChunks ⟨false, false, false⟩ [] = []) :=
  ⟨⟨tableRows_nil, otherRows_nil⟩,
   C8_empty_catalog [] tableRows_nil otherRows_nil⟩

/-- C9: the deprecated `DumpMigration(db, out)` entry point produces
exactly the same writer output and error result as
`DumpDB(db, out, WithMigration())`. -/
theorem C9_dumpMigration (db : DB) (beh : WriteBeh) :
    DumpMigration db beh = DumpDB db beh [WithMigration] := rfl

/-- C10: migration (schema-only) mode suppresses only the
ordinary-table CREATE branch: the `DELETE FROM "sqlite_sequence";` and
`ANALYZE "sqlite_master";` special cases are emitted identically in
both modes, the drop and other-schema and envelope segments of the
output are the same in both modes, and an ordinary table yields no
statement in migration mode but its CREATE statement in full mode. -/
theorem C10_migration_mode (cat : List MasterRow) (d w m : Bool) :
    (∀ s : Schema, s.Name = "sqlite_sequence" →
      tableStmt m s = some deleteSeqStmt) ∧
    (∀ s : Schema, s.Name = "sqlite3_stat1" →
      tableStmt m s = some analyzeStmt) ∧
    (∀ s : Schema, s.Name ≠ "sqlite_sequence" → s.Name ≠ "sqlite3_stat1" →
      strStartsWith s.Name "sqlite_" = false → hasFtsSuffix s.Name = false →
      tableStmt true s = none ∧ tableStmt false s = some (s.SQL ++ ";\n")) ∧
    dumpChunks ⟨true, d, w⟩ cat =
      envBeginChunks w ++ dropSeg d cat ++ tableSeg true cat ++ otherSeg cat ++
        envCommitChunks w ∧
    dumpChunks ⟨false, d, w⟩ cat =
      envBeginChunks w ++ dropSeg d cat ++ tableSeg false cat ++ otherSeg cat ++
        envCommitChunks w := by
  refine ⟨?_, ?_, ?_, dumpChunks_eq _ _, dumpChunks_eq _ _⟩
  · intro s h
    simp [tableStmt, h]
  · intro s h
    simp [tableStmt, h]
  · intro s h1 h2 h3 h4
    refine ⟨?_, ?_⟩ <;> simp [tableStmt, h1, h2, h3, h4]

/-- C10 (witness). -/
theorem C10_migration_mode_witness :
    ((⟨"sqlite_sequence", "table", "q"⟩ : Schema).Name = "sqlite_sequence" ∧
      tableStmt false ⟨"sqlite_sequence", "table", "q"⟩ = some deleteSeqStmt) ∧
    (tableStmt true ⟨"t", "table", "CREATE TABLE t(x)"⟩ = none ∧
      tableStmt false ⟨"t", "table", "CREATE TABLE t(x)"⟩ =
        some ("CREATE TABLE t(x)" ++ ";\n")) :=
  ⟨⟨rfl, (C10_migration_mode [] false false false).1
      ⟨"sqlite_sequence", "table", "q"⟩ rfl⟩,
   (C10_migration_mode [] false false false).2.2.1
     ⟨"t", "table", "CREATE TABLE t(x)"⟩
     (by decide) (by decide) (by decide) (by decide)⟩

/-- C4 (witness). -/
theorem C4_fts_tables_witness :
    hasFtsSuffix "foo_docsize" = true ∧
    (tableStmt false ⟨"foo_docsize", "table", "c"⟩ = none ∧
     ((⟨"foo_docsize", "table", "c"⟩ : Schema).Type' = "table" →
       strStartsWith "foo_docsize" "sqlite_" = false →
       dropStatement ⟨"foo_docsize", "table", "c"⟩ =
         some ("DROP TABLE IF EXISTS " ++ "foo_docsize" ++ ";\n"))) :=
  ⟨by decide, C4_fts_tables false ⟨"foo_docsize", "table", "c"⟩ (by decide)⟩

end Sqlite3Dump
